import Mathlib

/-!
Verification of the plate-recognition dashboard core
(`backend/ocr_processor.py`, `backend/database.py`, `backend/camera_manager.py`)
against its natural-language specification.

Shallow embedding conventions:
* Python strings handled character-wise are modelled as `List Char`
  (ASCII case conversion via `Char.toUpper`, which agrees with Python's
  `str.upper` on the ASCII range the plate pipeline works over); strings
  used only as identifiers/keys are modelled as `String`.
* Timestamps are modelled as `Int` seconds.  The SQLite `timestamp > ?`
  comparison on `"%Y-%m-%d %H:%M:%S"`-formatted strings is chronological at
  second granularity, so it is modelled as integer comparison.  A Python
  `timedelta` over integral seconds normalizes to
  `days = Δ / 86400, seconds = Δ % 86400` (Euclidean), so the `.seconds`
  field is `Δ % 86400` — modelled with `Int.emod`.
* The persistent store is modelled as an in-memory list of rows; the
  `sqlite3.Error` branches (environment failures) are outside the model.
-/

namespace PlateDashboard

/-! ## Text normalizer — `backend/ocr_processor.py` -/

/-- `[A-Z]` test used by the plate grammar patterns. -/
def isUpperAZ (c : Char) : Bool := 'A' ≤ c && c ≤ 'Z'

/-- `[0-9]` test used by the plate grammar patterns. -/
def isDigit09 (c : Char) : Bool := '0' ≤ c && c ≤ '9'

/-- Character classes appearing in the regex patterns of
`is_valid_peruvian_plate`: a letter `[A-Z]` or a digit `[0-9]`. -/
inductive CharPat where
  | L : CharPat
  | D : CharPat
deriving DecidableEq, Repr

/-- Anchored match of a fixed-shape pattern (`^...$` in the source regexes)
against a character list. -/
def matches_pattern : List CharPat → List Char → Bool
  | [], [] => true
  | CharPat.L :: ps, c :: cs => isUpperAZ c && matches_pattern ps cs
  | CharPat.D :: ps, c :: cs => isDigit09 c && matches_pattern ps cs
  | _, _ => false

/-- The six patterns of `is_valid_peruvian_plate`, in source order:
`ABC123`, `A1B234`, `AB1234`, `ABCD12`, `A12B34`, `123ABC`. -/
def plate_patterns : List (List CharPat) :=
  [ [CharPat.L, CharPat.L, CharPat.L, CharPat.D, CharPat.D, CharPat.D],
    [CharPat.L, CharPat.D, CharPat.L, CharPat.D, CharPat.D, CharPat.D],
    [CharPat.L, CharPat.L, CharPat.D, CharPat.D, CharPat.D, CharPat.D],
    [CharPat.L, CharPat.L, CharPat.L, CharPat.L, CharPat.D, CharPat.D],
    [CharPat.L, CharPat.D, CharPat.D, CharPat.L, CharPat.D, CharPat.D],
    [CharPat.D, CharPat.D, CharPat.D, CharPat.L, CharPat.L, CharPat.L] ]

/-- Whether some enumerated grammar pattern matches. -/
def matches_any_pattern (cs : List Char) : Bool :=
  plate_patterns.any (fun p => matches_pattern p cs)

/-- `re.sub(r'[-\s]', '', text)`: drop separators (dashes and whitespace). -/
def strip_separators (cs : List Char) : List Char :=
  cs.filter (fun c => !(c == '-' || c.isWhitespace))

/-- `is_valid_peruvian_plate` (ocr_processor.py lines 180-213). -/
def is_valid_peruvian_plate (text : List Char) : Bool :=
  if text.length < 5 then false
  else
    if (strip_separators text).length < 5 || 8 < (strip_separators text).length then false
    else matches_any_pattern (strip_separators text)

/-- `format_plate` (ocr_processor.py lines 286-298): strip separators; a
6-character code of shape letters-then-digits or letter-digit-letter-digits
gets a dash after the 3rd character; anything else is returned as-is. -/
def format_plate (text : List Char) : List Char :=
  if (strip_separators text).length = 6 then
    if matches_pattern [CharPat.L, CharPat.L, CharPat.L, CharPat.D, CharPat.D, CharPat.D]
        (strip_separators text)
       || matches_pattern [CharPat.L, CharPat.D, CharPat.L, CharPat.D, CharPat.D, CharPat.D]
        (strip_separators text) then
      (strip_separators text).take 3 ++ '-' :: (strip_separators text).drop 3
    else strip_separators text
  else strip_separators text

/-- Character allowed to survive `re.sub(r'[^A-Z0-9-]', '', text)`. -/
def allowed_char (c : Char) : Bool := isUpperAZ c || isDigit09 c || c == '-'

/-- `re.sub(r'-+', '-', s)`: collapse each run of dashes to a single dash.
The boolean argument records whether the previous kept character was a dash
inside the current run. -/
def squeeze_dashes_aux : Bool → List Char → List Char
  | _, [] => []
  | prevDash, c :: rest =>
    if c = '-' then
      if prevDash then squeeze_dashes_aux true rest
      else '-' :: squeeze_dashes_aux true rest
    else c :: squeeze_dashes_aux false rest

def squeeze_dashes (cs : List Char) : List Char := squeeze_dashes_aux false cs

/-- The cleaning stage of `clean_text` (lines 223-229): uppercase, strip the
characters outside `[A-Z0-9-]`, collapse dash runs.  (Python's intervening
`.strip()` only removes whitespace, which the character filter removes
anyway, so it is absorbed into the filter.) -/
def clean_stage (text : List Char) : List Char :=
  squeeze_dashes ((text.map Char.toUpper).filter allowed_char)

/-- Python `pat in s`: substring containment. -/
def contains_substring (pat : List Char) : List Char → Bool
  | [] => pat.isEmpty
  | c :: rest => pat.isPrefixOf (c :: rest) || contains_substring pat rest

/-- Python `s.replace(pat, repl)`: replace every non-overlapping occurrence
of `pat`, scanning left to right. -/
def replace_all (pat repl : List Char) : List Char → List Char
  | [] => []
  | c :: rest =>
    if pat ≠ [] ∧ pat.isPrefixOf (c :: rest) then
      repl ++ replace_all pat repl (rest.drop (pat.length - 1))
    else
      c :: replace_all pat repl rest
termination_by s => s.length
decreasing_by
  · simp only [List.length_drop, List.length_cons]
    omega
  · simp only [List.length_cons]
    omega

/-- The `corrections` dict of `clean_text` (lines 240-249), in insertion
order (Python dicts iterate in insertion order).  The last four entries are
identity substitutions, kept for faithfulness. -/
def multi_corrections : List (List Char × List Char) :=
  [ (['O', '0'], ['0', '0']),
    (['0', 'O'], ['0', '0']),
    (['I', 'I'], ['1', '1']),
    (['O', 'O'], ['0', '0']),
    (['B', '8'], ['B', '8']),
    (['8', 'B'], ['8', 'B']),
    (['S', '5'], ['S', '5']),
    (['5', 'S'], ['5', 'S']) ]

/-- The first multi-character correction loop (lines 251-256): for each
table entry whose pattern occurs in the text, test the substituted text;
return the first substitution that validates. -/
def first_multi_correction : List (List Char × List Char) → List Char → Option (List Char)
  | [], _ => none
  | (w, r) :: rest, cleaned =>
    if contains_substring w cleaned then
      if is_valid_peruvian_plate (replace_all w r cleaned) then
        some (replace_all w r cleaned)
      else first_multi_correction rest cleaned
    else first_multi_correction rest cleaned

/-- The `char_corrections` confusable map of `clean_text` (lines 259-266). -/
def char_swap : Char → Option Char
  | 'O' => some '0'
  | '0' => some 'O'
  | 'I' => some '1'
  | '1' => some 'I'
  | 'S' => some '5'
  | '5' => some 'S'
  | 'B' => some '8'
  | '8' => some 'B'
  | 'Z' => some '2'
  | '2' => some 'Z'
  | 'G' => some '6'
  | '6' => some 'G'
  | _ => none

/-- The `variations` list (lines 268-273): the cleaned text itself, then for
each position holding a confusable character, the text with that single
position swapped, positions scanned left to right. -/
def variations_of (cleaned : List Char) : List (List Char) :=
  cleaned :: (List.range cleaned.length).filterMap (fun i =>
    match char_swap (cleaned.getD i ' ') with
    | some r => some (cleaned.take i ++ r :: cleaned.drop (i + 1))
    | none => none)

/-- `clean_text` (ocr_processor.py lines 215-284). -/
def clean_text (text : List Char) : List Char :=
  if text = [] then []
  else
    if (clean_stage text).length < 5 || 9 < (clean_stage text).length then []
    else
      if is_valid_peruvian_plate (clean_stage text) then format_plate (clean_stage text)
      else
        match first_multi_correction multi_corrections (clean_stage text) with
        | some fixed => format_plate fixed
        | none =>
          match (variations_of (clean_stage text)).find? is_valid_peruvian_plate with
          | some v => format_plate v
          | none =>
            if 5 ≤ (clean_stage text).length && (clean_stage text).length ≤ 8 then
              clean_stage text
            else []

/-! ## Deduplication cache and persisted store — `backend/database.py` -/

/-- One row of the `plates` table (the columns the dedup logic reads). -/
structure DBRecord where
  plate_text : String
  camera_source : String
  timestamp : Int
deriving DecidableEq, Repr

/-- Module state of `database.py`: the in-memory `plate_cache` dict
(modelled as an association list whose head entry wins on lookup) and the
persisted `plates` table. -/
structure DedupState where
  plate_cache : List (String × Int)
  db : List DBRecord
deriving DecidableEq, Repr

/-- The cache key `f"{plate_text}_{camera_source}"`. -/
def dedup_key (plate_text camera_source : String) : String :=
  plate_text ++ "_" ++ camera_source

/-- The expiry test of `cleanup_cache`:
`(current_time - timestamp).seconds > 60`.  Python's `timedelta.seconds` is
the normalized seconds-within-day component, i.e. `(now - ts) % 86400`
(Euclidean remainder), NOT the total age in seconds. -/
def cache_expired (now ts : Int) : Bool := decide (60 < (now - ts) % 86400)

/-- `cleanup_cache` (database.py lines 13-23): drop the entries whose
`.seconds` component exceeds 60. -/
def cleanup_cache (now : Int) (cache : List (String × Int)) : List (String × Int) :=
  cache.filter (fun kv => !cache_expired now kv.2)

/-- `clear_dedup_cache` (database.py lines 25-29): reset the cache dict;
the persisted store is untouched. -/
def clear_dedup_cache (st : DedupState) : DedupState :=
  { plate_cache := [], db := st.db }

/-- Dict update `plate_cache[k] = v`: the new binding shadows any old one. -/
def cache_insert (k : String) (v : Int) (cache : List (String × Int)) :
    List (String × Int) :=
  (k, v) :: cache.filter (fun kv => kv.1 != k)

/-- The duplicate query of `add_plate_reading` (lines 124-131): the number
of persisted rows for this plate and source with timestamp strictly newer
than `now - dedup_seconds`. -/
def recent_in_db (now : Int) (plate_text camera_source : String)
    (dedup_seconds : Int) (db : List DBRecord) : Nat :=
  (db.filter (fun r =>
    r.plate_text == plate_text && r.camera_source == camera_source &&
      decide (now - dedup_seconds < r.timestamp))).length

/-- `not plate_text or not plate_text.strip()`: empty or all-whitespace. -/
def is_blank (s : String) : Bool := s.data.all (fun c => c.isWhitespace)

/-- `add_plate_reading` (database.py lines 80-158).  Control flow of the
source: reject blank text; sweep the cache; on a Tier-1 hit younger than
the window, reject; otherwise, if the key was absent from Tier 1, consult
the persisted store and on a recent row reject while backfilling Tier 1
with `current_time`; otherwise insert a new row and upsert Tier 1 with
`current_time`.  (The `sqlite3.Error` handler is an environment-failure
path outside this model.) -/
def add_plate_reading (now : Int) (plate_text camera_source : String)
    (dedup_seconds : Int) (st : DedupState) : Bool × DedupState :=
  if is_blank plate_text then (false, st)
  else
    match (cleanup_cache now st.plate_cache).lookup (dedup_key plate_text camera_source) with
    | some ts =>
      if now - ts < dedup_seconds then
        (false, { plate_cache := cleanup_cache now st.plate_cache, db := st.db })
      else
        (true,
         { plate_cache :=
             cache_insert (dedup_key plate_text camera_source) now
               (cleanup_cache now st.plate_cache),
           db := st.db ++ [⟨plate_text, camera_source, now⟩] })
    | none =>
      if 0 < recent_in_db now plate_text camera_source dedup_seconds st.db then
        (false,
         { plate_cache :=
             cache_insert (dedup_key plate_text camera_source) now
               (cleanup_cache now st.plate_cache),
           db := st.db })
      else
        (true,
         { plate_cache :=
             cache_insert (dedup_key plate_text camera_source) now
               (cleanup_cache now st.plate_cache),
           db := st.db ++ [⟨plate_text, camera_source, now⟩] })

/-! ## Camera manager — `backend/camera_manager.py`

The OpenCV environment is abstracted by oracles: `openOracle` maps a
connection endpoint to the capture object `cv2.VideoCapture` returns
(always an object, possibly not opened), and `readOracle` maps a capture
object to the outcome of one `cap.read()` (`none` models `success=False`).
The `time.sleep` settle delay for http endpoints has no observable effect
in this state model. -/

/-- A `cv2.VideoCapture` object, abstracted to its `isOpened()` flag. -/
structure Cap where
  opened : Bool
deriving DecidableEq, Repr

/-- A captured frame, abstracted to its pixel dimensions. -/
structure Frame where
  width : Nat
  height : Nat
deriving DecidableEq, Repr

/-- `CameraManager` instance state: `self.active_source` and
`self.current_cap`. -/
structure CamState where
  active_source : Option String
  current_cap : Option Cap
deriving DecidableEq, Repr

/-- `release_current_source` (camera_manager.py lines 82-88). -/
def release_current_source (st : CamState) : CamState :=
  match st.current_cap with
  | some _ => { active_source := none, current_cap := none }
  | none => st

/-- Truthiness test `self.current_cap and self.current_cap.isOpened()`. -/
def cap_open (st : CamState) : Bool :=
  match st.current_cap with
  | some c => c.opened
  | none => false

/-- `select_source` (camera_manager.py lines 16-52).  `cfg` is the
`CAMERA_SOURCES` dict of `config.py`; `name` is `Option` because the
recovery path passes `self.active_source`, which can be `None` (never a
dict key, so lookup fails).  The intermediate `release_current_source`
call of the source is absorbed: both branches that follow it overwrite the
whole state (`⟨some n, some cap⟩` on success, `⟨none, none⟩` on failure),
so the released state is never observable in the result. -/
def select_source (cfg : List (String × String)) (openOracle : String → Cap)
    (name : Option String) (st : CamState) : Bool × CamState :=
  match name.bind (fun n => (cfg.lookup n).map (fun p => (n, p))) with
  | none => (false, st)
  | some (n, path) =>
    if st.active_source = some n ∧ cap_open st = true then (true, st)
    else
      if (openOracle path).opened then
        (true, { active_source := some n, current_cap := some (openOracle path) })
      else
        (false, { active_source := none, current_cap := none })

/-- The resize step of `get_frame` (lines 70-75): frames wider than 800 are
scaled to width 800.  (`int(height * (800/width))` uses binary floating
point in the source; the exact rational floor used here can differ by one
unit in rare rounding cases, and no claim depends on the height.) -/
def downscale_frame (f : Frame) : Frame :=
  if 800 < f.width then { width := 800, height := f.height * 800 / f.width } else f

/-- `get_frame` (camera_manager.py lines 54-80).  The third component of
the result counts the `select_source` invocations performed by this call
(the source has a single such call site, on the read-failure path), so the
"exactly one automatic reselect" property is stated directly.  The result
of the reselect is discarded by the source, and `(False, None)` is returned
either way. -/
def get_frame (cfg : List (String × String)) (openOracle : String → Cap)
    (readOracle : Cap → Option Frame) (st : CamState) :
    (Bool × Option Frame) × CamState × Nat :=
  match st.current_cap with
  | some cap =>
    if cap.opened then
      match readOracle cap with
      | none =>
        ((false, none), (select_source cfg openOracle st.active_source st).2, 1)
      | some f => ((true, some (downscale_frame f)), st, 0)
    else ((false, none), st, 0)
  | none => ((false, none), st, 0)

/-! ## Helper lemmas -/

lemma lookup_eq_none_of_keys_ne {k : String} {l : List (String × Int)}
    (h : ∀ kv ∈ l, kv.1 ≠ k) : l.lookup k = none := by
  induction l with
  | nil => rfl
  | cons a t ih =>
    obtain ⟨a1, a2⟩ := a
    have ha : a1 ≠ k := h (a1, a2) (List.mem_cons_self _ t)
    rw [List.lookup_cons, beq_eq_false_iff_ne.mpr (Ne.symm ha)]
    exact ih (fun kv hkv => h kv (List.mem_cons_of_mem _ hkv))

lemma lookup_cache_insert_self (k : String) (v : Int) (c : List (String × Int)) :
    (cache_insert k v c).lookup k = some v := by
  unfold cache_insert
  rw [List.lookup_cons, beq_self_eq_true]

/-- Sweeping an upserted cache: the fresh entry survives exactly when it is
not expired, and no shadowed entry for the same key can resurface. -/
lemma cleanup_cache_insert_lookup (now v : Int) (k : String)
    (cache0 : List (String × Int)) :
    (cleanup_cache now (cache_insert k v cache0)).lookup k =
      if cache_expired now v = true then none else some v := by
  unfold cleanup_cache cache_insert
  rw [List.filter_cons]
  by_cases hexp : cache_expired now v = true
  · rw [if_pos hexp, if_neg (by simp [hexp])]
    apply lookup_eq_none_of_keys_ne
    intro kv hkv
    have h1 : kv ∈ cache0.filter (fun kv => kv.1 != k) := (List.mem_filter.mp hkv).1
    exact bne_iff_ne.mp (List.mem_filter.mp h1).2
  · rw [if_neg hexp, if_pos (by simp [Bool.not_eq_true] at hexp; simp [hexp])]
    rw [List.lookup_cons, beq_self_eq_true]

/-- Shape of an accepting `add_plate_reading` call: Tier 1 is upserted with
the current time and a new row is appended to the store. -/
lemma add_accept_shape {now w : Int} {p s : String} {st : DedupState}
    (h : (add_plate_reading now p s w st).1 = true) :
    (add_plate_reading now p s w st).2 =
      { plate_cache := cache_insert (dedup_key p s) now (cleanup_cache now st.plate_cache),
        db := st.db ++ [⟨p, s, now⟩] } := by
  unfold add_plate_reading at h ⊢
  by_cases hb : is_blank p = true
  · rw [if_pos hb] at h; simp at h
  · rw [if_neg hb] at h ⊢
    cases hc : (cleanup_cache now st.plate_cache).lookup (dedup_key p s) with
    | some ts =>
      rw [hc] at h
      dsimp only at h ⊢
      by_cases ht : now - ts < w
      · rw [if_pos ht] at h; simp at h
      · rw [if_neg ht]
    | none =>
      rw [hc] at h
      dsimp only at h ⊢
      by_cases hdb : 0 < recent_in_db now p s w st.db
      · rw [if_pos hdb] at h; simp at h
      · rw [if_neg hdb]

/-- An accepting call implies the plate text was not blank. -/
lemma add_accept_not_blank {now w : Int} {p s : String} {st : DedupState}
    (h : (add_plate_reading now p s w st).1 = true) : is_blank p = false := by
  by_cases hb : is_blank p = true
  · unfold add_plate_reading at h
    rw [if_pos hb] at h
    simp at h
  · exact Bool.not_eq_true _ |>.mp hb

/-- A repeat call within the window (`d < w`) right after an accept at time
`t` is rejected, whether the Tier-1 entry survived the sweep (Tier-1
reject) or was swept (Tier-2 reject on the just-inserted row). -/
lemma post_accept_reject (t d w : Int) (p s : String)
    (cache0 : List (String × Int)) (db0 : List DBRecord)
    (hnb : is_blank p = false) (hlt : d < w) :
    (add_plate_reading (t + d) p s w
      { plate_cache := cache_insert (dedup_key p s) t cache0,
        db := db0 ++ [⟨p, s, t⟩] }).1 = false := by
  unfold add_plate_reading
  rw [if_neg (by simp [hnb])]
  dsimp only
  rw [cleanup_cache_insert_lookup]
  by_cases hexp : cache_expired (t + d) t = true
  · rw [if_pos hexp]
    dsimp only
    have hq : 0 < recent_in_db (t + d) p s w (db0 ++ [(⟨p, s, t⟩ : DBRecord)]) := by
      unfold recent_in_db
      have hmem : (⟨p, s, t⟩ : DBRecord) ∈
          (db0 ++ [(⟨p, s, t⟩ : DBRecord)]).filter
          (fun r => r.plate_text == p && r.camera_source == s &&
            decide (t + d - w < r.timestamp)) := by
        refine List.mem_filter.mpr ⟨by simp, ?_⟩
        have harith : t + d - w < t := by omega
        simp [harith]
      exact List.length_pos.mpr (List.ne_nil_of_mem hmem)
    rw [if_pos hq]
  · rw [if_neg hexp]
    dsimp only
    have harith : t + d - t = d := by ring
    rw [harith, if_pos hlt]

/-- A repeat call at or after the window (`w ≤ d`) right after an accept at
time `t`, with no intervening call for the key, is accepted: a surviving
Tier-1 entry is too old to reject, and on a sweep the Tier-2 query finds no
row newer than `t + d - w`. -/
lemma post_accept_accept (t d w : Int) (p s : String)
    (cache0 : List (String × Int)) (db0 : List DBRecord)
    (hnb : is_blank p = false) (hdb : ∀ r ∈ db0, r.timestamp ≤ t)
    (hw : w ≤ d) :
    (add_plate_reading (t + d) p s w
      { plate_cache := cache_insert (dedup_key p s) t cache0,
        db := db0 ++ [⟨p, s, t⟩] }).1 = true := by
  unfold add_plate_reading
  rw [if_neg (by simp [hnb])]
  dsimp only
  rw [cleanup_cache_insert_lookup]
  by_cases hexp : cache_expired (t + d) t = true
  · rw [if_pos hexp]
    dsimp only
    have hq : recent_in_db (t + d) p s w (db0 ++ [(⟨p, s, t⟩ : DBRecord)]) = 0 := by
      unfold recent_in_db
      have hnil : (db0 ++ [(⟨p, s, t⟩ : DBRecord)]).filter
          (fun r => r.plate_text == p && r.camera_source == s &&
            decide (t + d - w < r.timestamp)) = [] := by
        rw [List.filter_eq_nil_iff]
        intro r hr
        rcases List.mem_append.mp hr with hr0 | hr1
        · have hts := hdb r hr0
          simp only [Bool.and_eq_true, decide_eq_true_eq, not_and]
          intro _ _
          omega
        · have : r = (⟨p, s, t⟩ : DBRecord) := by simpa using hr1
          subst this
          simp only [Bool.and_eq_true, decide_eq_true_eq, not_and]
          intro _ _
          omega
      rw [hnil]
      rfl
    rw [if_neg (by omega)]
  · rw [if_neg hexp]
    dsimp only
    have harith : t + d - t = d := by ring
    rw [harith, if_neg (by omega)]

lemma matches_pattern_length :
    ∀ (ps : List CharPat) (cs : List Char),
      matches_pattern ps cs = true → cs.length = ps.length := by
  intro ps
  induction ps with
  | nil =>
    intro cs h
    cases cs with
    | nil => rfl
    | cons c cs' => simp [matches_pattern] at h
  | cons p rest ih =>
    intro cs h
    cases cs with
    | nil => cases p <;> simp [matches_pattern] at h
    | cons c cs' =>
      cases p
      · rw [matches_pattern, Bool.and_eq_true] at h
        simp [ih cs' h.2]
      · rw [matches_pattern, Bool.and_eq_true] at h
        simp [ih cs' h.2]

lemma matches_any_pattern_length {cs : List Char}
    (h : matches_any_pattern cs = true) : cs.length = 6 := by
  unfold matches_any_pattern at h
  rw [List.any_eq_true] at h
  obtain ⟨p, hp, hm⟩ := h
  have hlen := matches_pattern_length p cs hm
  simp only [plate_patterns, List.mem_cons, List.not_mem_nil, or_false] at hp
  rcases hp with rfl | rfl | rfl | rfl | rfl | rfl <;> simpa using hlen

lemma valid_matches_pattern {v : List Char}
    (h : is_valid_peruvian_plate v = true) :
    matches_any_pattern (strip_separators v) = true := by
  unfold is_valid_peruvian_plate at h
  split at h
  · simp at h
  · split at h
    · simp at h
    · exact h

lemma strip_strip (v : List Char) :
    strip_separators (strip_separators v) = strip_separators v := by
  simp [strip_separators, List.filter_filter]

lemma strip_append (a b : List Char) :
    strip_separators (a ++ b) = strip_separators a ++ strip_separators b :=
  List.filter_append _ _

lemma strip_cons_dash (l : List Char) :
    strip_separators ('-' :: l) = strip_separators l := by
  simp only [strip_separators, List.filter_cons]
  rw [if_neg (by decide)]

lemma strip_eq_self_of_all {l : List Char}
    (h : ∀ a ∈ l, (!(a == '-' || a.isWhitespace)) = true) :
    strip_separators l = l :=
  List.filter_eq_self.mpr h

lemma strip_separators_format_plate (v : List Char) :
    strip_separators (format_plate v) = strip_separators v := by
  have hall : ∀ a ∈ strip_separators v, (!(a == '-' || a.isWhitespace)) = true :=
    fun a ha => (List.mem_filter.mp ha).2
  unfold format_plate
  split
  · split
    · rw [strip_append, strip_cons_dash,
          strip_eq_self_of_all (fun a ha => hall a (List.take_subset 3 _ ha)),
          strip_eq_self_of_all (fun a ha => hall a (List.drop_subset 3 _ ha)),
          List.take_append_drop]
    · exact strip_strip v
  · exact strip_strip v

lemma first_multi_correction_valid :
    ∀ (tbl : List (List Char × List Char)) (cleaned fixed : List Char),
      first_multi_correction tbl cleaned = some fixed →
      is_valid_peruvian_plate fixed = true := by
  intro tbl
  induction tbl with
  | nil =>
    intro cleaned fixed h
    simp [first_multi_correction] at h
  | cons a rest ih =>
    intro cleaned fixed h
    obtain ⟨w, r⟩ := a
    unfold first_multi_correction at h
    by_cases hc : contains_substring w cleaned = true
    · rw [if_pos hc] at h
      by_cases hv : is_valid_peruvian_plate (replace_all w r cleaned) = true
      · rw [if_pos hv] at h
        injection h with h'
        rw [← h']
        exact hv
      · rw [if_neg hv] at h
        exact ih cleaned fixed h
    · rw [if_neg hc] at h
      exact ih cleaned fixed h

/-! ## Theorems -/

/-- C5: the sweep is meant to remove every Tier-1 entry older than the
60-second horizon, but `cleanup_cache` tests the Python `timedelta.seconds`
field — the age modulo 86400 — so an entry aged exactly one day (86400 s,
far beyond the horizon) is kept.  This evaluates the code at that failing
input: the entry's age exceeds 60 seconds, yet the sweep retains it. -/
theorem C5_sweep_horizon_bug_eval :
    (60 : Int) < 86400 - 0 ∧
    cleanup_cache 86400 [("ABC-123_cam", 0)] = [("ABC-123_cam", 0)] := by
  decide

/-- C8 (counterexample): the claim says `clean_text "ABC I23"` returns
`"ABC-123"`; it does not. -/
theorem C8_worked_example_counterexample :
    clean_text "ABC I23".data ≠ "ABC-123".data := by
  decide

/-- C8 (amended): `clean_text "ABC I23"` returns `"ABCI23"` — cleaning
yields `"ABCI23"`, which already validates (it matches the
4-letters+2-digits pattern), so no correction is attempted, and
`format_plate` leaves a 6-character code that is neither 3-letters+3-digits
nor letter-digit-letter+3-digits unchanged. -/
theorem C8_worked_example :
    clean_stage "ABC I23".data = "ABCI23".data ∧
    matches_pattern
      [CharPat.L, CharPat.L, CharPat.L, CharPat.L, CharPat.D, CharPat.D]
      "ABCI23".data = true ∧
    is_valid_peruvian_plate "ABCI23".data = true ∧
    format_plate "ABCI23".data = "ABCI23".data ∧
    clean_text "ABC I23".data = "ABCI23".data := by
  decide

/-- C4 (counterexample): `clean_text "ABCDE"` returns `"ABCDE"`, which is
neither empty nor (with separators removed) a match of any of the six
grammar patterns — the length-[5,8] fallback escapes the claimed
invariant. -/
theorem C4_grammar_invariant_counterexample :
    clean_text "ABCDE".data = "ABCDE".data ∧
    "ABCDE".data ≠ ([] : List Char) ∧
    matches_any_pattern (strip_separators "ABCDE".data) = false := by
  decide

/-- C1 (counterexample): accept `"ABC123"` at t=1000 with a 100 s window;
at t=1070 the Tier-1 entry has been swept (age 70 > 60), so the call is
rejected through Tier 2 — not an accept — and Tier 1 is backfilled with
1070; at t=1100, a full window after the accepted event with no intervening
accept, the call is rejected (1100 − 1070 = 30 < 100), contradicting the
claimed "returns true after the window has elapsed". -/
theorem C1_dedup_window_behavior_counterexample :
    (add_plate_reading 1000 "ABC123" "cam" 100 (⟨[], []⟩ : DedupState)).1 = true ∧
    (add_plate_reading 1070 "ABC123" "cam" 100
      (add_plate_reading 1000 "ABC123" "cam" 100 (⟨[], []⟩ : DedupState)).2).1 = false ∧
    (add_plate_reading 1100 "ABC123" "cam" 100
      (add_plate_reading 1070 "ABC123" "cam" 100
        (add_plate_reading 1000 "ABC123" "cam" 100 (⟨[], []⟩ : DedupState)).2).2).1 = false := by
  decide

/-- C2 (counterexample): accept `"ABC-123"` at t=1000 with a 30 s window,
clear the dedup cache, and repeat the detection at t=1005: the claim says
the call returns true, but the Tier-2 store check finds the persisted
record and rejects. -/
theorem C2_clear_then_next_call_counterexample :
    (add_plate_reading 1000 "ABC-123" "cam" 30 (⟨[], []⟩ : DedupState)).1 = true ∧
    (add_plate_reading 1005 "ABC-123" "cam" 30
      (clear_dedup_cache
        (add_plate_reading 1000 "ABC-123" "cam" 30 (⟨[], []⟩ : DedupState)).2)).1 = false := by
  decide

/-- C3 (counterexample): with Tier 1 empty and a persisted record at
t=1000, a call at t=1010 (30 s window) rejects and backfills Tier 1 with
the current time 1010 — not with the found record's timestamp 1000 as the
claim states. -/
theorem C3_tier2_backfill_counterexample :
    (add_plate_reading 1010 "ABC-123" "cam" 30
      (⟨[], [⟨"ABC-123", "cam", 1000⟩]⟩ : DedupState)).1 = false ∧
    (add_plate_reading 1010 "ABC-123" "cam" 30
      (⟨[], [⟨"ABC-123", "cam", 1000⟩]⟩ : DedupState)).2.plate_cache.lookup
        "ABC-123_cam" = some 1010 ∧
    (1010 : Int) ≠ 1000 := by
  decide

/-- C6: any raw text whose cleaned form (uppercased, characters outside
`[A-Z0-9-]` stripped, dash runs collapsed) has length outside `[5, 9]` is
rejected by `clean_text` with the empty result. -/
theorem C6_length_rejection (text : List Char)
    (h : (clean_stage text).length < 5 ∨ 9 < (clean_stage text).length) :
    clean_text text = [] := by
  unfold clean_text
  by_cases h0 : text = []
  · rw [if_pos h0]
  · rw [if_neg h0, if_pos (by rcases h with h | h <;> simp [h])]

/-- C6 witness: `"AB"` cleans to itself with length 2 < 5 and is
rejected. -/
theorem C6_length_rejection_witness :
    ((clean_stage "AB".data).length < 5 ∨ 9 < (clean_stage "AB".data).length) ∧
    clean_text "AB".data = [] :=
  ⟨Or.inl (by decide), C6_length_rejection "AB".data (Or.inl (by decide))⟩

/-- C7: on an already-canonical input — a fixed point of the cleaning
stage whose length the cleaning stage admits and which, with separators
removed, matches one of the six grammar patterns — `clean_text` returns
exactly `format_plate` of the input. -/
theorem C7_idempotent_on_canonical (C : List Char)
    (hfix : clean_stage C = C) (hlen5 : 5 ≤ C.length) (hlen9 : C.length ≤ 9)
    (hpat : matches_any_pattern (strip_separators C) = true) :
    clean_text C = format_plate C := by
  have hne : C ≠ [] := by
    intro h
    rw [h] at hlen5
    simp at hlen5
  have hstriplen : (strip_separators C).length = 6 :=
    matches_any_pattern_length hpat
  have hvalid : is_valid_peruvian_plate C = true := by
    unfold is_valid_peruvian_plate
    rw [if_neg (by omega), if_neg (by simp [hstriplen])]
    exact hpat
  unfold clean_text
  rw [if_neg hne, hfix, if_neg (by simp; omega), if_pos hvalid]

/-- C7 witness: `"ABC-123"` is already canonical; `clean_text` agrees with
`format_plate` on it. -/
theorem C7_idempotent_on_canonical_witness :
    clean_stage "ABC-123".data = "ABC-123".data ∧
    matches_any_pattern (strip_separators "ABC-123".data) = true ∧
    clean_text "ABC-123".data = format_plate "ABC-123".data :=
  ⟨by decide, by decide,
   C7_idempotent_on_canonical "ABC-123".data (by decide) (by decide)
     (by decide) (by decide)⟩

/-- C4 (amended): every `clean_text` output is the empty string, or (with
separators removed) matches one of the six grammar patterns, or is the
fallback — the unvalidated cleaned text, of length within `[5, 8]`, that
matches no pattern. -/
theorem C4_grammar_invariant (text : List Char) :
    clean_text text = [] ∨
    matches_any_pattern (strip_separators (clean_text text)) = true ∨
    (5 ≤ (clean_text text).length ∧ (clean_text text).length ≤ 8 ∧
      is_valid_peruvian_plate (clean_text text) = false) := by
  unfold clean_text
  by_cases h0 : text = []
  · rw [if_pos h0]
    exact Or.inl rfl
  rw [if_neg h0]
  split
  · exact Or.inl rfl
  · split
    · rename_i hv
      exact Or.inr (Or.inl
        (by rw [strip_separators_format_plate]; exact valid_matches_pattern hv))
    · rename_i hv
      split
      · rename_i fixed hfixed
        have hvf := first_multi_correction_valid _ _ _ hfixed
        exact Or.inr (Or.inl
          (by rw [strip_separators_format_plate]; exact valid_matches_pattern hvf))
      · split
        · rename_i v hfind
          have hvv := List.find?_some hfind
          exact Or.inr (Or.inl
            (by rw [strip_separators_format_plate]; exact valid_matches_pattern hvv))
        · split
          · rename_i hlen
            rw [Bool.and_eq_true, decide_eq_true_eq, decide_eq_true_eq] at hlen
            have hvf : is_valid_peruvian_plate (clean_stage text) = false := by
              simpa using hv
            exact Or.inr (Or.inr ⟨hlen.1, hlen.2, hvf⟩)
          · exact Or.inl rfl

/-- C1 (amended): after an accepting call at time `t` for `(code,
sourceId)` with window `w` over a store whose rows all date from `t` or
earlier, a second call for the same key at `t + d` — with no intervening
call for that key (not merely no intervening accept: an intervening Tier-2
rejection backfills Tier 1 with the rejection time and re-arms the window)
— returns false when `0 ≤ d < w` and true when `d ≥ w`. -/
theorem C1_dedup_window_behavior (t d w : Int) (p s : String)
    (st : DedupState) (hdb : ∀ r ∈ st.db, r.timestamp ≤ t) (_hd : 0 ≤ d)
    (hacc : (add_plate_reading t p s w st).1 = true) :
    (d < w →
      (add_plate_reading (t + d) p s w (add_plate_reading t p s w st).2).1 = false) ∧
    (w ≤ d →
      (add_plate_reading (t + d) p s w (add_plate_reading t p s w st).2).1 = true) := by
  have hnb := add_accept_not_blank hacc
  have hshape := add_accept_shape hacc
  constructor
  · intro hlt
    rw [hshape]
    exact post_accept_reject t d w p s _ _ hnb hlt
  · intro hw
    rw [hshape]
    exact post_accept_accept t d w p s _ _ hnb hdb hw

/-- C1 witness: fresh state, accept `"ABC123"` at t=1000 with a 30 s
window; at t=1005 the repeat is rejected, at t=1031 it is accepted. -/
theorem C1_dedup_window_behavior_witness :
    (add_plate_reading (1000 + 5) "ABC123" "cam" 30
      (add_plate_reading 1000 "ABC123" "cam" 30 (⟨[], []⟩ : DedupState)).2).1 = false ∧
    (add_plate_reading (1000 + 31) "ABC123" "cam" 30
      (add_plate_reading 1000 "ABC123" "cam" 30 (⟨[], []⟩ : DedupState)).2).1 = true :=
  ⟨(C1_dedup_window_behavior 1000 5 30 "ABC123" "cam" ⟨[], []⟩
      (by simp) (by norm_num) (by decide)).1 (by norm_num),
   (C1_dedup_window_behavior 1000 31 30 "ABC123" "cam" ⟨[], []⟩
      (by simp) (by norm_num) (by decide)).2 (by norm_num)⟩

/-- C2 (amended): after `clear_dedup_cache`, the very next call for a
previously accepted `(code, sourceId)` still within the window returns
false, not true: Tier 1 is empty, so the Tier-2 store check runs, finds the
persisted recent record, rejects, and backfills Tier 1 with the current
time. -/
theorem C2_clear_then_next_call (now w : Int) (p s : String) (st : DedupState)
    (hnb : is_blank p = false)
    (hrec : ∃ r ∈ st.db, r.plate_text = p ∧ r.camera_source = s ∧
      now - w < r.timestamp) :
    add_plate_reading now p s w (clear_dedup_cache st) =
      (false, { plate_cache := [(dedup_key p s, now)], db := st.db }) := by
  unfold add_plate_reading clear_dedup_cache
  rw [if_neg (by simp [hnb])]
  dsimp only
  have hq : 0 < recent_in_db now p s w st.db := by
    obtain ⟨r, hr, h1, h2, h3⟩ := hrec
    unfold recent_in_db
    have hmem : r ∈ st.db.filter
        (fun r => r.plate_text == p && r.camera_source == s &&
          decide (now - w < r.timestamp)) :=
      List.mem_filter.mpr ⟨hr, by rw [h1, h2]; simp [h3]⟩
    exact List.length_pos.mpr (List.ne_nil_of_mem hmem)
  rw [if_pos hq]
  rfl

/-- C2 witness: accept `"ABC-123"` at t=1000 (30 s window), clear, repeat
at t=1005: rejected with Tier 1 backfilled at 1005. -/
theorem C2_clear_then_next_call_witness :
    add_plate_reading 1005 "ABC-123" "cam" 30
        (clear_dedup_cache (⟨[("ABC-123_cam", 1000)],
          [(⟨"ABC-123", "cam", 1000⟩ : DBRecord)]⟩ : DedupState)) =
      (false, { plate_cache := [(dedup_key "ABC-123" "cam", 1005)],
                db := [(⟨"ABC-123", "cam", 1000⟩ : DBRecord)] }) :=
  C2_clear_then_next_call 1005 30 "ABC-123" "cam"
    ⟨[("ABC-123_cam", 1000)], [⟨"ABC-123", "cam", 1000⟩]⟩
    (by decide) ⟨⟨"ABC-123", "cam", 1000⟩, by simp, rfl, rfl, by norm_num⟩

/-- C3 (amended): when `(code, sourceId)` is absent from Tier 1 after the
sweep and the persisted store holds a record newer than `now − w`, the call
returns false and Tier 1 is backfilled with the current time `now` (not
with the found record's timestamp). -/
theorem C3_tier2_backfill (now w : Int) (p s : String) (st : DedupState)
    (hnb : is_blank p = false)
    (hmiss : (cleanup_cache now st.plate_cache).lookup (dedup_key p s) = none)
    (hrec : ∃ r ∈ st.db, r.plate_text = p ∧ r.camera_source = s ∧
      now - w < r.timestamp) :
    (add_plate_reading now p s w st).1 = false ∧
    (add_plate_reading now p s w st).2.plate_cache.lookup (dedup_key p s) =
      some now := by
  unfold add_plate_reading
  rw [if_neg (by simp [hnb]), hmiss]
  dsimp only
  have hq : 0 < recent_in_db now p s w st.db := by
    obtain ⟨r, hr, h1, h2, h3⟩ := hrec
    unfold recent_in_db
    have hmem : r ∈ st.db.filter
        (fun r => r.plate_text == p && r.camera_source == s &&
          decide (now - w < r.timestamp)) :=
      List.mem_filter.mpr ⟨hr, by rw [h1, h2]; simp [h3]⟩
    exact List.length_pos.mpr (List.ne_nil_of_mem hmem)
  rw [if_pos hq]
  exact ⟨rfl, lookup_cache_insert_self _ _ _⟩

/-- C3 witness: empty Tier 1, store record at t=1000, call at t=1010 with a
30 s window: rejected, and Tier 1 now maps the key to 1010. -/
theorem C3_tier2_backfill_witness :
    (add_plate_reading 1010 "ABC-123" "cam" 30
      (⟨[], [(⟨"ABC-123", "cam", 1000⟩ : DBRecord)]⟩ : DedupState)).1 = false ∧
    (add_plate_reading 1010 "ABC-123" "cam" 30
      (⟨[], [(⟨"ABC-123", "cam", 1000⟩ : DBRecord)]⟩ : DedupState)).2.plate_cache.lookup
        (dedup_key "ABC-123" "cam") = some 1010 :=
  C3_tier2_backfill 1010 30 "ABC-123" "cam"
    ⟨[], [⟨"ABC-123", "cam", 1000⟩]⟩ (by decide) rfl
    ⟨⟨"ABC-123", "cam", 1000⟩, by simp, rfl, rfl, by norm_num⟩

/-- C9: when the open source's read fails, `get_frame` performs exactly one
automatic reselect of the currently active source id and returns failure
`(False, None)` to the caller, regardless of the reselect's outcome — the
resulting state is exactly the state after that single `select_source`
call. -/
theorem C9_single_reselect (cfg : List (String × String))
    (openOracle : String → Cap) (readOracle : Cap → Option Frame)
    (st : CamState) (cap : Cap)
    (hcap : st.current_cap = some cap) (hopen : cap.opened = true)
    (hread : readOracle cap = none) :
    get_frame cfg openOracle readOracle st =
      ((false, none), (select_source cfg openOracle st.active_source st).2, 1) := by
  unfold get_frame
  rw [hcap]
  dsimp only
  rw [if_pos hopen, hread]

/-- C9 witness: a one-source configuration with a healthy open webcam whose
read fails; the reselect succeeds idempotently and the call still returns
failure. -/
theorem C9_single_reselect_witness :
    get_frame [("webcam", "0")] (fun _ => ⟨true⟩) (fun _ => none)
        (⟨some "webcam", some ⟨true⟩⟩ : CamState) =
      ((false, none),
       (select_source [("webcam", "0")] (fun _ => ⟨true⟩) (some "webcam")
          (⟨some "webcam", some ⟨true⟩⟩ : CamState)).2, 1) :=
  C9_single_reselect _ _ _ _ ⟨true⟩ rfl rfl rfl

/-- C10: calling `select_source` with a source id absent from the
configured source map while some other source is open fails (returns
`False`) without touching any state: the previously active source is still
active and still open afterwards. -/
theorem C10_unknown_source_preserves_state (cfg : List (String × String))
    (openOracle : String → Cap) (bad other : String) (st : CamState) (cap : Cap)
    (hbad : cfg.lookup bad = none)
    (hact : st.active_source = some other)
    (hcap : st.current_cap = some cap) (hopen : cap.opened = true) :
    select_source cfg openOracle (some bad) st = (false, st) ∧
    (select_source cfg openOracle (some bad) st).2.active_source = some other ∧
    cap_open (select_source cfg openOracle (some bad) st).2 = true := by
  have h : select_source cfg openOracle (some bad) st = (false, st) := by
    simp [select_source, hbad]
  refine ⟨h, ?_, ?_⟩
  · rw [h]; exact hact
  · rw [h]; unfold cap_open; rw [hcap]; exact hopen

/-- C10 witness: source `"nope"` is not configured; the open `"webcam"`
stays active and open after the failed call. -/
theorem C10_unknown_source_preserves_state_witness :
    select_source [("webcam", "0")] (fun _ => ⟨true⟩) (some "nope")
        (⟨some "webcam", some ⟨true⟩⟩ : CamState) =
      (false, (⟨some "webcam", some ⟨true⟩⟩ : CamState)) ∧
    (select_source [("webcam", "0")] (fun _ => ⟨true⟩) (some "nope")
        (⟨some "webcam", some ⟨true⟩⟩ : CamState)).2.active_source = some "webcam" ∧
    cap_open (select_source [("webcam", "0")] (fun _ => ⟨true⟩) (some "nope")
        (⟨some "webcam", some ⟨true⟩⟩ : CamState)).2 = true :=
  C10_unknown_source_preserves_state _ _ _ "webcam" _ ⟨true⟩ rfl rfl rfl rfl

end PlateDashboard
